import Mathlib

/-!
Verification of the session-lifecycle and clip-delivery pipeline of the
obs_fog_server repository, as a shallow embedding in Lean 4.

The repository contains two variants of the pipeline:
* `src/app` (FastAPI gateway, `app/routers/hooks.py`, `app/services/stream.py`,
  `app/models/pc.py`) together with `src/worker_service/main.py`;
* `src/obs/app/api_hooks.py` together with `src/worker/main.py`.

Each definition below is translated from the named source function.  External
effects (the database, the file system, the ffmpeg subprocess, the Telegram
HTTP API) are made explicit: the database is a record of lists of rows,
subprocess and transport results are inputs, and file/notification effects are
fields of the result records.
-/

namespace ObsFog

/-- Clip job status, from `ClipStatus` in `src/app/models/pc.py`. -/
inductive ClipStatus where
  | pending
  | processing
  | sent
  | stored
  | too_big
  | failed
deriving DecidableEq, Repr

/-- Stream session status, from `SessionStatus` in `src/app/models/pc.py`. -/
inductive SessStatus where
  | live
  | done
  | error
deriving DecidableEq, Repr

/-! ### Size comparison of `src/worker_service/main.py`

`process_clip` computes `size_mb = file_size / (1024 * 1024)` in IEEE-754
double precision and compares `size_mb <= TELEGRAM_MAX_MB`.  CPython's
integer true division returns the correctly rounded double of the exact
quotient (round to nearest, ties to even, 53-bit significand), and its
float-to-int comparison is exact.  Dividing by the power of two 2^20 only
shifts the binary exponent, so the correctly rounded quotient equals the
53-bit rounding of `file_size` divided exactly by 2^20; the rounding is
modelled explicitly below (the overflow range `file_size` on the order of
2^1024, far beyond any file size, is not modelled). -/

/-- Number of binary digits of `n`, computed with `fuel ≥ n` so that the
recursion is structural and reduces in the kernel. -/
def bitLenAux : Nat → Nat → Nat
  | 0, _ => 0
  | fuel + 1, n => if n = 0 then 0 else bitLenAux fuel (n / 2) + 1

/-- Number of binary digits of `n` (0 for 0). -/
def bitLen (n : Nat) : Nat := bitLenAux n n

/-- Round `n` to the nearest integer representable with a 53-bit significand
(IEEE-754 double, round to nearest, ties to even): numbers below 2^53 are
exact; otherwise the excess low bits are dropped and the retained significand
is rounded half-to-even. -/
def roundFloat53 (n : Nat) : Nat :=
  if n < 2 ^ 53 then n
  else
    let k := bitLen n - 53
    let q := n / 2 ^ k
    let r := n % 2 ^ k
    let half := 2 ^ (k - 1)
    if half < r ∨ (r = half ∧ q % 2 = 1) then (q + 1) * 2 ^ k else q * 2 ^ k

/-- The value `size_mb` computed at `src/worker_service/main.py:124`: the
correctly rounded double quotient `file_size / (1024 * 1024)`, i.e. the
53-bit rounding of `file_size` scaled exactly by 2^-20. -/
def size_mb (file_size : Nat) : ℚ := (roundFloat53 file_size : ℚ) / (1024 * 1024)

/-- The comparison `size_mb <= TELEGRAM_MAX_MB` at `src/worker_service/main.py:126`
(exact in CPython for a float against an int). -/
def size_mb_le (file_size limitMB : Nat) : Prop :=
  size_mb file_size ≤ (limitMB : ℚ)

theorem size_mb_le_iff (file_size limitMB : Nat) :
    size_mb_le file_size limitMB ↔ roundFloat53 file_size ≤ limitMB * (1024 * 1024) := by
  unfold size_mb_le size_mb
  rw [div_le_iff₀ (by norm_num : (0 : ℚ) < 1024 * 1024)]
  constructor
  · intro h
    exact_mod_cast h
  · intro h
    exact_mod_cast h

instance (file_size limitMB : Nat) : Decidable (size_mb_le file_size limitMB) :=
  decidable_of_iff (roundFloat53 file_size ≤ limitMB * (1024 * 1024))
    (size_mb_le_iff file_size limitMB).symm

/-- Below 2^53 the double representation is exact. -/
theorem roundFloat53_of_lt (n : Nat) (h : n < 2 ^ 53) : roundFloat53 n = n := by
  unfold roundFloat53
  rw [if_pos h]

/-! ### The worker_service pipeline (`src/worker_service/main.py`) -/

/-- Environment of one `process_clip` call (`src/worker_service/main.py:72`):
the ffmpeg subprocess exit code, the result of `output_path.stat()` (`none`
when the output file is missing, so that `stat` raises), the linked Telegram
recipient `user.tg_chat_id`, the `TELEGRAM_BOT_TOKEN` / `TELEGRAM_MAX_MB` /
`AUTO_DELETE_AFTER_SEND` configuration, and the transport result of
`send_telegram_video` (which returns a `Bool` and catches every exception
internally, lines 157-184). -/
structure PCEnv where
  ffmpegRc : Int
  outStat : Option Nat
  tgChatId : Option Int
  botToken : String
  limitMB : Nat
  autoDeleteAfterSend : Bool
  sendVideoOk : Bool
deriving DecidableEq, Repr

/-- The persisted `ClipJob` fields written by `process_clip`, plus the two
external effects: whether the output file is on disk afterwards and the text
messages pushed through `send_telegram_message`. -/
structure PCOut where
  status : ClipStatus
  result_path : Option String
  size_bytes : Option Nat
  error : Option String
  filePresent : Bool
  texts : List String
deriving DecidableEq, Repr

/-- Python truthiness of `user.tg_chat_id` (`None` and `0` are falsy). -/
def chatTruthy (v : Option Int) : Bool :=
  match v with
  | some n => n != 0
  | none => false

/-- The notification sent on the too-big branch, `src/worker_service/main.py:140`
(body abbreviated; only its presence is relevant). -/
def wsTooBigText : String := "too large for Telegram"

/-- The path of the produced clip, `src/worker_service/main.py:87`
(`VIDEOS_DIR / f"clip_session_{session.id}.mp4"`; abbreviated to a marker
since no claim depends on its exact form). -/
def wsOutPath : String := "clip_session.mp4"

/-- `process_clip`, `src/worker_service/main.py:72-154`.

Control flow of the source: status is first set to PROCESSING and committed;
a nonzero ffmpeg exit raises (caught at line 150, terminal FAILED); a missing
output file makes `output_path.stat()` raise `FileNotFoundError` (same handler,
terminal FAILED); otherwise `result_path`/`size_bytes` are recorded and status
is set to STORED; if a recipient and a bot token are present the size test of
line 126 either attempts delivery (success: SENT, and with
`AUTO_DELETE_AFTER_SEND` the file is unlinked and `result_path` reset to
`None`; failure: the STORED status and the file are left as they are) or marks
TOO_BIG and sends a text notification.  The final field values are the ones
committed at line 147 (resp. 154). -/
def process_clip (env : PCEnv) : PCOut :=
  if env.ffmpegRc != 0 then
    { status := .failed, result_path := none, size_bytes := none,
      error := some "FFmpeg failed", filePresent := env.outStat.isSome,
      texts := [] }
  else
    match env.outStat with
    | none =>
      { status := .failed, result_path := none, size_bytes := none,
        error := some "FileNotFoundError", filePresent := false, texts := [] }
    | some file_size =>
      if chatTruthy env.tgChatId && (env.botToken != "") then
        if size_mb_le file_size env.limitMB then
          if env.sendVideoOk then
            if env.autoDeleteAfterSend then
              { status := .sent, result_path := none,
                size_bytes := some file_size, error := none,
                filePresent := false, texts := [] }
            else
              { status := .sent, result_path := some wsOutPath,
                size_bytes := some file_size, error := none,
                filePresent := true, texts := [] }
          else
            { status := .stored, result_path := some wsOutPath,
              size_bytes := some file_size, error := none,
              filePresent := true, texts := [] }
        else
          { status := .too_big, result_path := some wsOutPath,
            size_bytes := some file_size, error := none,
            filePresent := true, texts := [wsTooBigText] }
      else
        { status := .stored, result_path := some wsOutPath,
          size_bytes := some file_size, error := none,
          filePresent := true, texts := [] }

/-! ### The worker pipeline (`src/worker/main.py`) -/

/-- `TELEGRAM_LIMIT_BYTES` of `src/worker/main.py:42`. -/
def TELEGRAM_LIMIT_BYTES : Nat := 50 * 1024 * 1024

/-- One HLS segment as seen by `_build_mp4_from_hls`: whether the file exists
when staged and its size in bytes. -/
structure MSeg where
  present : Bool
  size : Nat
deriving DecidableEq, Repr

/-- Environment of one `_build_mp4_from_hls` call (`src/worker/main.py:289-360`):
whether `index.m3u8` exists (after the wait loop), the segment files listed in
it, the ffmpeg exit code, and whether the output file exists and its size. -/
structure MuxEnv where
  m3u8Exists : Bool
  segments : List MSeg
  ffmpegRc : Int
  outExists : Bool
  outSize : Nat
deriving DecidableEq, Repr

/-- `_build_mp4_from_hls`, `src/worker/main.py:289-360`.  Every failure in the
source is a raised `RuntimeError`, embedded as `Except.error` with the
source's message; success returns the output size (the path is not modelled).
A segment is staged only if it exists with positive size (lines 313-317); an
empty concat list raises (line 326); a nonzero ffmpeg exit raises (line 353);
a missing or empty (`size <= 0`) output raises (line 355). -/
def build_mp4_from_hls (env : MuxEnv) : Except String Nat :=
  if !env.m3u8Exists then .error "HLS playlist not found"
  else if env.segments.isEmpty then .error "No HLS segments"
  else if (env.segments.filter (fun s => s.present && decide (0 < s.size))).isEmpty then
    .error "No valid segments to concat"
  else if env.ffmpegRc != 0 then .error "ffmpeg concat failed"
  else if !env.outExists || env.outSize == 0 then .error "Output mp4 not created"
  else .ok env.outSize

/-- The row written by `_job_update` (`src/worker/main.py:200-218`) together
with the worker's external effects: whether the produced clip file is still on
disk (`producedFilePresent`; on the exception path no complete clip was
produced and the field is `false`) and the text messages pushed through
`_tg_send_message`.  Job statuses in this variant are the strings `queued`,
`running`, `done`, `failed`. -/
structure WOut where
  status : String
  message : String
  output_path : Option String
  producedFilePresent : Bool
  texts : List String
deriving DecidableEq, Repr

/-- The oversize notification of `src/worker/main.py:385-390` (body
abbreviated; only its presence is relevant). -/
def wTooBigText : String := "size over 50 MB, not sent"

/-- The send-failure notification of `src/worker/main.py:406` (abbreviated). -/
def wSendFailText : String := "failed to send video"

/-- The build/send error notification of `src/worker/main.py:417` (abbreviated). -/
def wErrorText : String := "error building or sending video"

/-- The output path produced at `src/worker/main.py:330` (abbreviated marker). -/
def wOutPath : String := "out.mp4"

/-- `handle_job`, `src/worker/main.py:373-421`, for a claimed job.
`auto_delete` is the `_setting_bool "auto_delete"` snapshot of line 378 and
`sendOk` the result of `_tg_send_video` (which returns a `Bool` and catches
every exception internally, lines 235-257).

Source control flow: a `_build_mp4_from_hls` failure is caught at line 416 and
recorded as status `failed` with the error text truncated to 500 characters and
no output path.  An oversized build (strictly greater than
`TELEGRAM_LIMIT_BYTES`, line 384) notifies the admin, records `failed` with
message `too_large (N bytes)` and removes the file when `auto_delete` is on.
Otherwise delivery is attempted: success records `done` with message
`sent (N bytes)`; failure sends a text notice and records `failed` with message
`send_failed`; in both cases the file is removed when `auto_delete` is on
(lines 409-413). -/
def handle_job (auto_delete : Bool) (env : MuxEnv) (sendOk : Bool) : WOut :=
  match build_mp4_from_hls env with
  | .error e =>
    { status := "failed", message := String.mk (e.toList.take 500), output_path := none,
      producedFilePresent := false, texts := [wErrorText] }
  | .ok size =>
    if TELEGRAM_LIMIT_BYTES < size then
      { status := "failed",
        message := "too_large (" ++ toString size ++ " bytes)",
        output_path := some wOutPath,
        producedFilePresent := !auto_delete, texts := [wTooBigText] }
    else if sendOk then
      { status := "done",
        message := "sent (" ++ toString size ++ " bytes)",
        output_path := some wOutPath,
        producedFilePresent := !auto_delete, texts := [] }
    else
      { status := "failed", message := "send_failed",
        output_path := some wOutPath,
        producedFilePresent := !auto_delete, texts := [wSendFailText] }

/-! ### The atomic job claim (`src/worker/main.py:155-197`)

The `jobs` table is embedded as a list of rows kept in ascending-`id` order
(ids are generated by a `SERIAL` primary key, so insertion order is id order);
`ORDER BY id ASC LIMIT 1` selects the first `queued` row of the list.  Both
database branches of `_claim_next_job` perform one atomic read-modify step:
the Postgres branch is a single `UPDATE ... FROM (SELECT ... FOR UPDATE SKIP
LOCKED)` statement, and the SQLite branch wraps the select and the
status-guarded update (`WHERE id=? AND status='queued'`) in one `BEGIN
IMMEDIATE` transaction.  Each claim is therefore one serialized step, and any
concurrent execution by N workers is some interleaving, i.e. a sequence, of
such steps; `claimRun` below executes such a sequence. -/

/-- A row of the `jobs` table of `src/worker/main.py` (fields not consulted by
the claim are omitted).  Statuses are the source's strings. -/
structure JobR where
  id : Nat
  status : String
deriving DecidableEq, Repr

/-- The conditional update `SET status='running' WHERE id=? AND status='queued'`
of `src/worker/main.py:187-190` (the Postgres statement at lines 159-174 has
the same effect). -/
def markRunning (jobs : List JobR) (i : Nat) : List JobR :=
  jobs.map (fun j => if j.id == i && j.status == "queued" then { j with status := "running" } else j)

/-- One atomic `_claim_next_job` step (`src/worker/main.py:155-197`): select the
oldest `queued` row, set it to `running`, and return its id — or `none`. -/
def claimNext (jobs : List JobR) : Option Nat × List JobR :=
  match jobs.find? (fun j => j.status == "queued") with
  | none => (none, jobs)
  | some j => (some j.id, markRunning jobs j.id)

/-- A sequence of `k` atomic claim steps, returning the list of claimed job ids
and the final table. -/
def claimRun (jobs : List JobR) : Nat → List Nat × List JobR
  | 0 => ([], jobs)
  | k + 1 =>
    match claimNext jobs with
    | (none, _) => ([], jobs)
    | (some i, jobs1) =>
      let r := claimRun jobs1 k
      (i :: r.1, r.2)

/-- The ids of the `queued` rows, in table order. -/
def queuedIds (jobs : List JobR) : List Nat :=
  (jobs.filter (fun j => j.status == "queued")).map JobR.id

/-! ### The worker_service poll (`src/worker_service/main.py:56-84`)

`get_pending_jobs` is a plain `SELECT` of up to 5 PENDING jobs, and
`process_clip` later writes `status = PROCESSING` with a separate unguarded
`UPDATE` at commit time — a read followed by a separate write.  The model has
two workers, each holding the snapshot of ids returned by its last poll. -/

/-- A `clip_jobs` row as consulted by the worker_service poll.  The list is
kept in ascending `created_at` order, matching `ORDER BY created_at ASC`. -/
structure WSJob where
  id : Nat
  status : ClipStatus
deriving DecidableEq, Repr

/-- `get_pending_jobs`, `src/worker_service/main.py:56-69`: the ids of up to 5
PENDING jobs in creation order. -/
def ws_get_pending (jobs : List WSJob) : List Nat :=
  ((jobs.filter (fun j => j.status == ClipStatus.pending)).map WSJob.id).take 5

/-- Shared state of the polling workers: the `clip_jobs` table, one snapshot
list per worker, and the log of claims (each PENDING→PROCESSING write). -/
structure WSState where
  jobs : List WSJob
  snaps : List (List Nat)
  claims : List Nat
deriving DecidableEq, Repr

/-- An event of the interleaved execution: worker `w` polls
(`get_pending_jobs`), or worker `w` starts `process_clip` on the next job of
its snapshot, writing `status = PROCESSING` unconditionally
(`src/worker_service/main.py:82-83`). -/
inductive WSEv where
  | poll (w : Nat)
  | claimJob (w : Nat)
deriving DecidableEq, Repr

/-- One interleaving step of the worker_service main loops. -/
def wsStep (st : WSState) : WSEv → WSState
  | .poll w => { st with snaps := st.snaps.set w (ws_get_pending st.jobs) }
  | .claimJob w =>
    match st.snaps.getD w [] with
    | [] => st
    | i :: rest =>
      { jobs := st.jobs.map (fun j => if j.id == i then { j with status := ClipStatus.processing } else j),
        snaps := st.snaps.set w rest,
        claims := st.claims ++ [i] }

/-- An interleaved execution of the two polling workers. -/
def wsExec (st : WSState) (evs : List WSEv) : WSState :=
  evs.foldl wsStep st

/-! ### Sessions and clip jobs of the FastAPI gateway
(`src/app/routers/hooks.py`, `src/app/services/stream.py`,
`src/app/models/pc.py`)

The durable store is a record of the `stream_sessions` and `clip_jobs` tables.
Timestamps are seconds as integers. -/

/-- A `stream_sessions` row (`StreamSession` in `src/app/models/pc.py`). -/
structure SessionRec where
  id : Nat
  pc_id : Nat
  started_at : Int
  ended_at : Option Int
  status : SessStatus
  note : Option String
deriving DecidableEq, Repr

/-- A `clip_jobs` row (`ClipJob` in `src/app/models/pc.py`); `session_id`
carries a database `unique` constraint (line 117 of the model file). -/
structure ClipJobRec where
  id : Nat
  session_id : Nat
  status : ClipStatus
deriving DecidableEq, Repr

/-- The durable store shared by the gateway and the workers. -/
structure AppDb where
  sessions : List SessionRec
  jobs : List ClipJobRec
deriving DecidableEq, Repr

instance {ε α : Type} [DecidableEq ε] [DecidableEq α] : DecidableEq (Except ε α) :=
  fun a b =>
    match a, b with
    | .ok x, .ok y =>
      if h : x = y then isTrue (by rw [h]) else isFalse (fun hc => h (Except.ok.inj hc))
    | .error x, .error y =>
      if h : x = y then isTrue (by rw [h]) else isFalse (fun hc => h (Except.error.inj hc))
    | .ok _, .error _ => isFalse (fun hc => Except.noConfusion hc)
    | .error _, .ok _ => isFalse (fun hc => Except.noConfusion hc)

/-- Predicate for a LIVE session of a given PC, as selected by
`get_active_session` (`src/app/services/stream.py:142-150`). -/
def isLiveFor (pc : Nat) (s : SessionRec) : Bool :=
  s.pc_id == pc && s.status == SessStatus.live

/-- Number of LIVE sessions of a PC. -/
def liveCount (db : AppDb) (pc : Nat) : Nat :=
  db.sessions.countP (isLiveFor pc)

/-- `StreamService.get_active_session`, `src/app/services/stream.py:142-150`:
a `scalar_one_or_none()` over the LIVE sessions of the PC — `none` for no row,
the row if unique, and a raised `MultipleResultsFound` otherwise (the
`ORDER BY started_at DESC` does not affect which of 0, 1 or many rows exist). -/
def get_active_session (db : AppDb) (pc : Nat) : Except String (Option SessionRec) :=
  match db.sessions.filter (isLiveFor pc) with
  | [] => .ok none
  | [s] => .ok (some s)
  | _ => .error "MultipleResultsFound"

/-- `StreamService.end_session`, `src/app/services/stream.py:116-130`: sets
`ended_at` and `status` on the session row, and sets `note` only when the
passed note is truthy (`if note:` — not `None` and not the empty string). -/
def end_session (db : AppDb) (sid : Nat) (st : SessStatus) (note : Option String) (now : Int) : AppDb :=
  { db with sessions := db.sessions.map (fun s =>
      if s.id == sid then
        let newNote := match note with
          | some n => if n == "" then s.note else some n
          | none => s.note
        { s with ended_at := some now, status := st, note := newNote }
      else s) }

/-- `StreamService.start_session`, `src/app/services/stream.py:104-114`:
inserts a new LIVE session row. -/
def start_session (db : AppDb) (pc fresh : Nat) (now : Int) : AppDb :=
  { db with sessions := db.sessions ++ [{ id := fresh, pc_id := pc, started_at := now, ended_at := none, status := .live, note := none }] }

/-- The session phase of the `on_publish` hook, `src/app/routers/hooks.py:111-120`
(after the stream key has been resolved to a PC and the PC and its user have
passed the authorization checks): if a LIVE session exists it is force-closed
with status ERROR and the note of line 116, then a new LIVE session is
created. -/
def on_publish_sessions (db : AppDb) (pc fresh : Nat) (now : Int) : Except String AppDb := do
  let existing ← get_active_session db pc
  let db1 := match existing with
    | some s => end_session db s.id .error (some "Replaced by new stream") now
    | none => db
  pure (start_session db1 pc fresh now)

/-- `StreamService.create_clip_job`, `src/app/services/stream.py:179-188`,
inserting a PENDING job for a session.  The function itself performs no
uniqueness check; the database unique constraint on `session_id` makes the
insert (the commit of line 186) fail when a job for the session already
exists, embedded as `Except.error`. -/
def create_clip_job (db : AppDb) (sid fresh : Nat) : Except String AppDb :=
  if db.jobs.any (fun j => j.session_id == sid) then .error "UniqueViolation"
  else .ok { db with jobs := db.jobs ++ [{ id := fresh, session_id := sid, status := .pending }] }

/-- The first commit of the `on_publish_done` hook
(`src/app/routers/hooks.py:168`, via `end_session` with status DONE and no
note): the session is closed and the transaction committed, making the state
visible to every other actor before the clip job exists. -/
def on_publish_done_close (db : AppDb) (sid : Nat) (now : Int) : AppDb :=
  end_session db sid .done none now

/-- One committed database step of the stop path: either some handler commits
an `end_session` (status DONE) or some handler commits a `create_clip_job`
insert (which fails, changing nothing, when the unique constraint is
violated — the handler then raises and returns a 500). -/
inductive StopEv where
  | closeSession (sid : Nat) (now : Int)
  | newJob (sid fresh : Nat)
deriving DecidableEq, Repr

/-- Apply one committed stop-path step. -/
def stopStep (db : AppDb) : StopEv → AppDb
  | .closeSession sid now => on_publish_done_close db sid now
  | .newJob sid fresh =>
    match create_clip_job db sid fresh with
    | .ok db1 => db1
    | .error _ => db

/-- An interleaved execution of concurrently running stop handlers. -/
def stopExec (db : AppDb) (evs : List StopEv) : AppDb :=
  evs.foldl stopStep db

/-- Number of clip jobs referencing a session. -/
def jobCount (db : AppDb) (sid : Nat) : Nat :=
  db.jobs.countP (fun j => j.session_id == sid)

/-! ### The retention sweep (`src/worker_service/main.py:208-225`) -/

/-- A file of the clip output directory as listed by the sweep's `glob`:
its name, its modification time (seconds), and whether it is still on disk
when the sweep reaches it (`present := false` models a file deleted by another
actor between the `glob` and the `stat`/`unlink`, whose `stat` raises
`FileNotFoundError`). -/
structure ClipFile where
  name : String
  mtime : Int
  present : Bool
deriving DecidableEq, Repr

/-- The `glob("clip_*.mp4")` pattern of `src/worker_service/main.py:216`
(string functions are implemented over the character list so that concrete
computations reduce in the kernel). -/
def matchesClipGlob (name : String) : Bool :=
  "clip_".toList.isPrefixOf name.toList && ".mp4".toList.reverse.isPrefixOf name.toList.reverse

/-- The per-file body of `cleanup_old_clips` (`src/worker_service/main.py:217-222`):
`stat`, compare against the cutoff, `unlink` — any exception is raised to the
surrounding `try`.  The result is the file's disk state afterwards. -/
def sweepFileOp (cutoff : Int) (f : ClipFile) : Except String (Option ClipFile) :=
  if !f.present then .error "FileNotFoundError"
  else if f.mtime < cutoff then .ok none
  else .ok (some f)

/-- One iteration of the sweep loop (`src/worker_service/main.py:216-222`) as
a total function: a file not matching the glob is not visited; a visited
file's body runs under the `try`, and on an exception the `except` logs and
keeps going (the file stays in whatever disk state it had).  Returns the
file's disk state after the iteration. -/
def sweepKeep (cutoff : Int) (f : ClipFile) : Option ClipFile :=
  if matchesClipGlob f.name then
    match sweepFileOp cutoff f with
    | .ok r => r
    | .error _ => if f.present then some f else none
  else some f

/-- `cleanup_old_clips`, `src/worker_service/main.py:208-225`: skip everything
when the directory does not exist; otherwise visit each `clip_*.mp4` file.
Returns the directory contents afterwards; the function never raises, and it
never touches the database. -/
def cleanup_old_clips (dirExists : Bool) (now retentionHours : Int) (files : List ClipFile) : List ClipFile :=
  if !dirExists then files
  else
    let cutoff := now - retentionHours * 3600
    files.filterMap (sweepKeep cutoff)

/-- Worker-service system state for the sweep: the output directory and the
`clip_jobs` table. -/
structure SweepState where
  files : List ClipFile
  jobs : List ClipJobRec
deriving DecidableEq, Repr

/-- One run of the retention sweep as called from `main_loop`
(`src/worker_service/main.py:249-251`): `cleanup_old_clips` receives no
database handle, so the jobs table passes through untouched. -/
def retention_sweep (dirExists : Bool) (now retentionHours : Int) (st : SweepState) : SweepState :=
  { st with files := cleanup_old_clips dirExists now retentionHours st.files }

/-! ### Stream-key extraction of the hooks
(`src/app/routers/hooks.py:20-55` and `src/obs/app/api_hooks.py:19-54`)

`urllib.parse.urlparse` and `parse_qs` are embedded for the URL shapes the
ingest server sends (`scheme://netloc/path?query`, no percent-encoding):
the fragment is cut at the first `#`, the query starts after the first `?`,
and the path is what follows the netloc.  `parse_qs` with default arguments
drops pairs with a blank value, and `params[k][0]` is the first value. -/

/-- The characters after the first occurrence of `c`, if `c` occurs. -/
def charsAfterFirst (c : Char) : List Char → Option (List Char)
  | [] => none
  | x :: rest => if x == c then some rest else charsAfterFirst c rest

/-- Split a character list on every occurrence of `c` (like Python's
`str.split(c)`: the empty string yields one empty part). -/
def splitOnChar (c : Char) : List Char → List (List Char)
  | [] => [[]]
  | x :: rest =>
    let r := splitOnChar c rest
    if x == c then [] :: r
    else
      match r with
      | [] => [[x]]
      | h :: t => (x :: h) :: t

/-- The characters after the first `://`, if present (the netloc+path part of
a URL with a scheme). -/
def afterSchemeSep : List Char → Option (List Char)
  | ':' :: '/' :: '/' :: rest => some rest
  | _ :: rest => afterSchemeSep rest
  | [] => none

/-- Everything before the first `#` (urlparse separates the fragment there). -/
def dropFragment (s : String) : List Char :=
  s.toList.takeWhile (fun c => c != '#')

/-- The query component: everything after the first `?` (fragment removed). -/
def urlQuery (s : String) : String :=
  match charsAfterFirst '?' (dropFragment s) with
  | some q => String.mk q
  | none => ""

/-- The path component: for `scheme://netloc/path` the part from the first `/`
after the netloc; a string without `://` is all path. -/
def urlPath (s : String) : String :=
  let noq := (dropFragment s).takeWhile (fun c => c != '?')
  match afterSchemeSep noq with
  | none => String.mk noq
  | some rest =>
    match charsAfterFirst '/' rest with
    | some ps => String.mk ('/' :: ps)
    | none => ""

/-- `parse_qs(query)[k][0]` when `k` is in the dict, else `none`: pairs are
separated by `&`, a pair without `=` is skipped, the key is the part before
the first `=`, and blank values are dropped (`keep_blank_values` defaults to
false). -/
def parse_qs_first (query k : String) : Option String :=
  ((splitOnChar '&' query.toList).filterMap (fun pair =>
    match charsAfterFirst '=' pair with
    | none => none
    | some v =>
      let kk := pair.takeWhile (fun c => c != '=')
      if kk == k.toList && v != [] then some (String.mk v) else none)).head?

/-- Python's `s.strip("/")`: remove `/` characters from both ends. -/
def stripSlashes (s : String) : List Char :=
  let l := s.toList.dropWhile (fun c => c == '/')
  (l.reverse.dropWhile (fun c => c == '/')).reverse

/-- Python truthiness of an optional string: not `None` and not empty. -/
def strTruthy (v : Option String) : Prop := v ≠ none ∧ v ≠ some ""

instance (v : Option String) : Decidable (strTruthy v) := by
  unfold strTruthy
  infer_instance

/-- Lines 42-55 of `src/app/routers/hooks.py`: the `tcurl` branch of
`extract_stream_key` and the final `return name` fallback (the `try`/`except`
around the parse swallows parse errors, which the total embedding does not
produce). -/
def extract_key_tcurl (name tcurl : Option String) : Option String :=
  if strTruthy tcurl then
    let t := tcurl.getD ""
    match parse_qs_first (urlQuery t) "key" with
    | some v => some v
    | none =>
      let path_parts := splitOnChar '/' (stripSlashes (urlPath t))
      if 1 < path_parts.length then some (String.mk (path_parts.getLastD [])) else name
  else name

/-- Lines 37-55 of `src/app/routers/hooks.py`: the `key` check (`if key:
return key`) and what follows it. -/
def extract_key_rest (name key tcurl : Option String) : Option String :=
  if strTruthy key then key else extract_key_tcurl name tcurl

/-- `extract_stream_key`, `src/app/routers/hooks.py:20-55`.

Source order: return `name` if it is truthy AND longer than 10 characters;
else return `key` if truthy; else, if `tcurl` is truthy, return
`parse_qs(urlparse(tcurl).query)["key"][0]` when present, else the last
component of the path when it has more than one component; finally fall back
to returning `name` as-is (possibly `None` or empty). -/
def extract_stream_key (name key tcurl : Option String) : Option String :=
  if strTruthy name ∧ 10 < (name.getD "").length then name
  else extract_key_rest name key tcurl

/-- Python's `str.strip()`: whitespace removed from both ends. -/
def pyStrip (s : String) : String :=
  let l := s.toList.dropWhile Char.isWhitespace
  String.mk ((l.reverse.dropWhile Char.isWhitespace).reverse)

/-- The normalization `_first` of `src/obs/app/api_hooks.py:19-26` applies to
a single value: strip whitespace, keep only a non-blank result. -/
def obsNorm (v : Option String) : Option String :=
  match v with
  | some s => if pyStrip s == "" then none else some (pyStrip s)
  | none => none

/-- `_extract_stream_key`, `src/obs/app/api_hooks.py:29-54`, after the
form/query merging done by `_first` (each argument is the merged raw value of
the `name`, `key`, `stream` and `tcurl` fields): candidates are the normalized
`name`, `key`, `stream`, then the first of `name`/`key`/`stream` found in the
query string of `tcurl`; the first truthy candidate wins. -/
def obs_extract_stream_key (name key stream tcurl : Option String) : Option String :=
  let base := [obsNorm name, obsNorm key, obsNorm stream]
  let cands := base ++ (match obsNorm tcurl with
    | some t =>
      [((([parse_qs_first (urlQuery t) "name",
           parse_qs_first (urlQuery t) "key",
           parse_qs_first (urlQuery t) "stream"]).filterMap obsNorm)).head?]
    | none => [])
  (cands.filterMap id).head?

/-- A mux environment in which every step of `_build_mp4_from_hls` succeeds
and the output file has the given size. -/
def muxEnvOf (sz : Nat) : MuxEnv :=
  { m3u8Exists := true, segments := [{ present := true, size := 1 }],
    ffmpegRc := 0, outExists := true, outSize := sz }

/-- A worker_service environment with a produced output of the given size,
a linked recipient, a bot token, and the given limit/auto-delete/transport
parameters. -/
def pcEnvOf (sz limitMB : Nat) (c : Int) (tok : String) (autoDel sendOk : Bool) : PCEnv :=
  { ffmpegRc := 0, outStat := some sz, tgChatId := some c, botToken := tok,
    limitMB := limitMB, autoDeleteAfterSend := autoDel, sendVideoOk := sendOk }

/-- A worker_service environment with no linked recipient and no bot token. -/
def pcEnvNoRecipient (rc : Int) (outStat : Option Nat) : PCEnv :=
  { ffmpegRc := rc, outStat := outStat, tgChatId := none, botToken := "",
    limitMB := 50, autoDeleteAfterSend := false, sendVideoOk := false }

/-- A mux environment whose HLS playlist never appears. -/
def muxEnvNoPlaylist : MuxEnv :=
  { m3u8Exists := false, segments := [], ffmpegRc := 0, outExists := false, outSize := 0 }

theorem size_mb_le_exact (m : Nat) (h : m * (1024 * 1024) < 2 ^ 53) :
    size_mb_le (m * (1024 * 1024)) m := by
  rw [size_mb_le_iff, roundFloat53_of_lt _ h]

theorem size_mb_le_exact_succ (m : Nat) (h : m * (1024 * 1024) + 1 < 2 ^ 53) :
    ¬ size_mb_le (m * (1024 * 1024) + 1) m := by
  rw [size_mb_le_iff, roundFloat53_of_lt _ h]
  omega

theorem build_muxEnvOf (sz : Nat) (h : 0 < sz) : build_mp4_from_hls (muxEnvOf sz) = .ok sz := by
  simp [build_mp4_from_hls, muxEnvOf]
  omega

/-- Unfolding of `process_clip` on a successful build with recipient and token
present, in terms of the size comparison and the transport result. -/
theorem process_clip_eq (sz limitMB : Nat) (c : Int) (tok : String) (autoDel sendOk : Bool)
    (hc : c ≠ 0) (ht : tok ≠ "") :
    process_clip (pcEnvOf sz limitMB c tok autoDel sendOk) =
      if size_mb_le sz limitMB then
        if sendOk then
          if autoDel then
            { status := .sent, result_path := none, size_bytes := some sz,
              error := none, filePresent := false, texts := [] }
          else
            { status := .sent, result_path := some wsOutPath, size_bytes := some sz,
              error := none, filePresent := true, texts := [] }
        else
          { status := .stored, result_path := some wsOutPath, size_bytes := some sz,
            error := none, filePresent := true, texts := [] }
      else
        { status := .too_big, result_path := some wsOutPath, size_bytes := some sz,
          error := none, filePresent := true, texts := [wsTooBigText] } := by
  simp [process_clip, pcEnvOf, chatTruthy, bne_iff_ne, hc, ht]

/-- Unfolding of `handle_job` on a successful build, in terms of the size
comparison and the transport result. -/
theorem handle_job_eq (autoDel sendOk : Bool) (env : MuxEnv) (sz : Nat)
    (h : build_mp4_from_hls env = .ok sz) :
    handle_job autoDel env sendOk =
      if TELEGRAM_LIMIT_BYTES < sz then
        { status := "failed", message := "too_large (" ++ toString sz ++ " bytes)",
          output_path := some wOutPath, producedFilePresent := !autoDel,
          texts := [wTooBigText] }
      else if sendOk then
        { status := "done", message := "sent (" ++ toString sz ++ " bytes)",
          output_path := some wOutPath, producedFilePresent := !autoDel, texts := [] }
      else
        { status := "failed", message := "send_failed", output_path := some wOutPath,
          producedFilePresent := !autoDel, texts := [wSendFailText] } := by
  simp [handle_job, h]

/-- Claim C4 counterexample: at `limit_MB = 2^33` the `worker_service`
comparison is computed in double precision, and a clip of
`limit_MB * 1024 * 1024 + 1 = 2^53 + 1` bytes rounds to `2^53` in the
division, so `size_mb <= limit_MB` holds and the clip is NOT classified
TOO_BIG (delivery is attempted; with the transport failing the job ends
STORED) — the strict boundary of the claim fails for this limit. -/
theorem claim_C4_cex :
    (process_clip (pcEnvOf (8589934592 * (1024 * 1024) + 1) 8589934592 1 "t" false false)).status
      = ClipStatus.stored
    ∧ (process_clip (pcEnvOf (8589934592 * (1024 * 1024) + 1) 8589934592 1 "t" false false)).status
      ≠ ClipStatus.too_big := by
  constructor <;> decide

/-- Claim C4 (amended): the classification boundary is strictly greater-than
whenever the byte counts fit in the 53-bit significand of a double (i.e.
`limit_MB * 1024 * 1024 + 1 < 2^53`, `limit_MB < 2^33`): in
`worker_service/main.py` (with a linked recipient and a bot token) a clip of
exactly `limitMB * 1024 * 1024` bytes never gets status TOO_BIG while one
byte more always does; beyond 2^53 the float rounding of the division can
absorb the extra byte (see the counterexample).  In `worker/main.py` the
comparison `size > 50 * 1024 * 1024` is exact integer arithmetic, so a clip
of exactly `TELEGRAM_LIMIT_BYTES` never takes the `too_large` branch while
one byte more always does, for all sizes. -/
theorem claim_C4_boundary (limitMB : Nat) (autoDel sendOk : Bool)
    (hlim : limitMB * (1024 * 1024) + 1 < 2 ^ 53) :
    (process_clip (pcEnvOf (limitMB * (1024 * 1024)) limitMB 1 "t" autoDel sendOk)).status ≠ ClipStatus.too_big
    ∧ (process_clip (pcEnvOf (limitMB * (1024 * 1024) + 1) limitMB 1 "t" autoDel sendOk)).status = ClipStatus.too_big
    ∧ (handle_job autoDel (muxEnvOf TELEGRAM_LIMIT_BYTES) sendOk).message
        ≠ "too_large (" ++ toString TELEGRAM_LIMIT_BYTES ++ " bytes)"
    ∧ (handle_job autoDel (muxEnvOf (TELEGRAM_LIMIT_BYTES + 1)) sendOk).message
        = "too_large (" ++ toString (TELEGRAM_LIMIT_BYTES + 1) ++ " bytes)" := by
  have hpos : (0 : Nat) < TELEGRAM_LIMIT_BYTES := by decide
  refine ⟨?_, ?_, ?_, ?_⟩
  · rw [process_clip_eq _ _ _ _ _ _ (by decide) (by decide),
      if_pos (size_mb_le_exact limitMB (by omega))]
    cases sendOk <;> cases autoDel <;> simp
  · rw [process_clip_eq _ _ _ _ _ _ (by decide) (by decide),
      if_neg (size_mb_le_exact_succ limitMB hlim)]
  · rw [handle_job_eq _ _ _ _ (build_muxEnvOf _ hpos), if_neg (lt_irrefl _)]
    cases sendOk <;> simp <;> decide
  · rw [handle_job_eq _ _ _ _ (build_muxEnvOf _ (by omega)),
      if_pos (Nat.lt_succ_self _)]

/-- Claim C4 witness: the amended boundary at the default 50 MB limit, which
is far inside the exact range. -/
theorem claim_C4_witness :
    (50 * (1024 * 1024) + 1 < 2 ^ 53)
    ∧ (process_clip (pcEnvOf (50 * (1024 * 1024)) 50 1 "t" false true)).status ≠ ClipStatus.too_big
    ∧ (process_clip (pcEnvOf (50 * (1024 * 1024) + 1) 50 1 "t" false true)).status = ClipStatus.too_big :=
  ⟨by decide,
   (claim_C4_boundary 50 false true (by decide)).1,
   (claim_C4_boundary 50 false true (by decide)).2.1⟩

/-- What a successful `_build_mp4_from_hls` guarantees: the output existed
with positive size, which is what was returned, and ffmpeg exited 0. -/
theorem build_ok_facts (env : MuxEnv) (sz : Nat) (h : build_mp4_from_hls env = .ok sz) :
    env.outExists = true ∧ 0 < sz ∧ sz = env.outSize ∧ env.ffmpegRc = 0 := by
  unfold build_mp4_from_hls at h
  split at h
  · exact absurd h (by simp)
  split at h
  · exact absurd h (by simp)
  split at h
  · exact absurd h (by simp)
  split at h
  · exact absurd h (by simp)
  split at h
  · exact absurd h (by simp)
  rename_i h1 h2 h3 h4 h5
  simp only [Except.ok.injEq] at h
  simp only [Bool.not_eq_true] at h1 h5
  simp only [bne_iff_ne, ne_eq, Decidable.not_not] at h4
  rcases Bool.or_eq_false_iff.mp h5 with ⟨ho, hz⟩
  refine ⟨by simpa using ho, ?_, h.symm, h4⟩
  have hnz : env.outSize ≠ 0 := by simpa using hz
  omega

/-- Claim C5 counterexample: in `worker_service/main.py`, with the auto-delete
setting on and a successfully produced file, a TOO_BIG terminal outcome leaves
the file on disk — auto-delete does not act on every terminal state alike. -/
theorem claim_C5_cex :
    (process_clip (pcEnvOf (50 * (1024 * 1024) + 1) 50 1 "t" true true)).status = ClipStatus.too_big
    ∧ (process_clip (pcEnvOf (50 * (1024 * 1024) + 1) 50 1 "t" true true)).filePresent = true := by
  constructor <;> decide

/-- Claim C5 (amended): in `worker/main.py`, with `auto_delete` on and a
successfully produced file, the file is absent after every terminal outcome
(`done` after a sent video, `failed` after a failed delivery, and the
too-large `failed`); in `worker_service/main.py` the `AUTO_DELETE_AFTER_SEND`
setting removes the produced file exactly on a successful send (terminal
SENT), and all other terminal outcomes retain the file. -/
theorem claim_C5_autodelete :
    (∀ (env : MuxEnv) (sendOk : Bool) (sz : Nat), build_mp4_from_hls env = .ok sz →
       (handle_job true env sendOk).producedFilePresent = false)
    ∧ (∀ (sz limitMB : Nat) (c : Int) (tok : String) (autoDel sendOk : Bool),
        c ≠ 0 → tok ≠ "" →
        ((process_clip (pcEnvOf sz limitMB c tok autoDel sendOk)).filePresent = false
          ↔ autoDel = true ∧ (process_clip (pcEnvOf sz limitMB c tok autoDel sendOk)).status = ClipStatus.sent)) := by
  constructor
  · intro env sendOk sz h
    rw [handle_job_eq true sendOk env sz h]
    by_cases hs : TELEGRAM_LIMIT_BYTES < sz
    · simp [hs]
    · cases sendOk <;> simp [hs]
  · intro sz limitMB c tok autoDel sendOk hc ht
    rw [process_clip_eq sz limitMB c tok autoDel sendOk hc ht]
    by_cases hf : size_mb_le sz limitMB
    · cases sendOk <;> cases autoDel <;> simp [hf]
    · cases sendOk <;> cases autoDel <;> simp [hf]

/-- Claim C5 witness: the amended statement evaluated at a produced 5-byte
clip with auto-delete on in both variants. -/
theorem claim_C5_witness :
    (handle_job true (muxEnvOf 5) true).producedFilePresent = false
    ∧ ((process_clip (pcEnvOf 5 50 1 "t" true true)).filePresent = false
        ↔ true = true ∧ (process_clip (pcEnvOf 5 50 1 "t" true true)).status = ClipStatus.sent) :=
  ⟨claim_C5_autodelete.1 (muxEnvOf 5) true 5 (build_muxEnvOf 5 (by decide)),
   claim_C5_autodelete.2 5 50 1 "t" true true (by decide) (by decide)⟩

/-- Claim C6 counterexample: in `worker_service/main.py` a transport failure
on an attempted delivery leaves the job in STORED (not FAILED) and sends no
text notification. -/
theorem claim_C6_cex :
    (process_clip (pcEnvOf 5 50 1 "t" false false)).status = ClipStatus.stored
    ∧ (process_clip (pcEnvOf 5 50 1 "t" false false)).status ≠ ClipStatus.failed
    ∧ (process_clip (pcEnvOf 5 50 1 "t" false false)).texts = [] := by
  refine ⟨by decide, by decide, by decide⟩

/-- Claim C6 (amended): for an attempted delivery (produced clip within the
limit, recipient present), `worker/main.py` records `done` on transport
success, and on transport failure records `failed` and sends a best-effort
text notice; `worker_service/main.py` records SENT on transport success but on
transport failure leaves the job STORED and sends nothing.  In both variants
the transport call returns a boolean and catches its exceptions internally, so
a transport error never propagates into the pipeline. -/
theorem claim_C6_delivery :
    (∀ (autoDel : Bool) (env : MuxEnv) (sz : Nat),
       build_mp4_from_hls env = .ok sz → sz ≤ TELEGRAM_LIMIT_BYTES →
       (handle_job autoDel env true).status = "done"
       ∧ (handle_job autoDel env false).status = "failed"
       ∧ (handle_job autoDel env false).texts = [wSendFailText])
    ∧ (∀ (sz limitMB : Nat) (c : Int) (tok : String) (autoDel : Bool),
        c ≠ 0 → tok ≠ "" → size_mb_le sz limitMB →
        (process_clip (pcEnvOf sz limitMB c tok autoDel true)).status = ClipStatus.sent
        ∧ (process_clip (pcEnvOf sz limitMB c tok autoDel false)).status = ClipStatus.stored
        ∧ (process_clip (pcEnvOf sz limitMB c tok autoDel false)).texts = []) := by
  constructor
  · intro autoDel env sz h hle
    rw [handle_job_eq autoDel true env sz h, handle_job_eq autoDel false env sz h]
    have hs : ¬ TELEGRAM_LIMIT_BYTES < sz := by omega
    simp [hs]
  · intro sz limitMB c tok autoDel hc ht hf
    rw [process_clip_eq sz limitMB c tok autoDel true hc ht,
      process_clip_eq sz limitMB c tok autoDel false hc ht]
    cases autoDel <;> simp [hf]

/-- Claim C6 witness: the amended statement evaluated at a produced 5-byte
clip with a present recipient, for both transport outcomes. -/
theorem claim_C6_witness :
    ((handle_job false (muxEnvOf 5) true).status = "done"
      ∧ (handle_job false (muxEnvOf 5) false).status = "failed"
      ∧ (handle_job false (muxEnvOf 5) false).texts = [wSendFailText])
    ∧ ((process_clip (pcEnvOf 5 50 1 "t" false true)).status = ClipStatus.sent
      ∧ (process_clip (pcEnvOf 5 50 1 "t" false false)).status = ClipStatus.stored
      ∧ (process_clip (pcEnvOf 5 50 1 "t" false false)).texts = []) :=
  ⟨claim_C6_delivery.1 false (muxEnvOf 5) 5 (build_muxEnvOf 5 (by decide)) (by decide),
   claim_C6_delivery.2 5 50 1 "t" false (by decide) (by decide) (by decide)⟩

/-- Claim C7 counterexample: in `worker_service/main.py` an ffmpeg run that
exits 0 but leaves a zero-byte output file is recorded as the success outcome
STORED with `size_bytes = 0` — the pipeline does record a success outcome for
an empty output file. -/
theorem claim_C7_cex :
    (process_clip (pcEnvNoRecipient 0 (some 0))).status = ClipStatus.stored
    ∧ (process_clip (pcEnvNoRecipient 0 (some 0))).size_bytes = some 0 := by
  constructor <;> decide

/-- Claim C7 (amended): in `worker/main.py` a muxer failure and a missing or
zero-byte output are all raised by `_build_mp4_from_hls` and recorded as
terminal `failed`, and a `done` outcome implies the output existed with
positive size; in `worker_service/main.py` a nonzero ffmpeg exit or a missing
output file is recorded FAILED, but a zero-byte output produced with exit 0
is not caught (see the counterexample). -/
theorem claim_C7_mux_failure :
    (∀ (env : MuxEnv) (sz : Nat), build_mp4_from_hls env = .ok sz →
       env.outExists = true ∧ 0 < sz ∧ sz = env.outSize ∧ env.ffmpegRc = 0)
    ∧ (∀ (autoDel sendOk : Bool) (env : MuxEnv) (e : String),
        build_mp4_from_hls env = .error e → (handle_job autoDel env sendOk).status = "failed")
    ∧ (∀ (autoDel sendOk : Bool) (env : MuxEnv),
        (handle_job autoDel env sendOk).status = "done" → env.outExists = true ∧ 0 < env.outSize)
    ∧ (∀ envP : PCEnv, envP.ffmpegRc ≠ 0 → (process_clip envP).status = ClipStatus.failed)
    ∧ (∀ envP : PCEnv, envP.outStat = none → (process_clip envP).status = ClipStatus.failed) := by
  refine ⟨build_ok_facts, ?_, ?_, ?_, ?_⟩
  · intro autoDel sendOk env e h
    simp [handle_job, h]
  · intro autoDel sendOk env h
    unfold handle_job at h
    split at h
    · simp at h
    · rename_i sz hok
      have hfacts := build_ok_facts env sz hok
      split at h
      · simp at h
      · exact ⟨hfacts.1, hfacts.2.2.1 ▸ hfacts.2.1⟩
  · intro envP h
    unfold process_clip
    rw [if_pos (by simpa [bne_iff_ne] using h)]
  · intro envP h
    unfold process_clip
    by_cases hrc : envP.ffmpegRc != 0
    · rw [if_pos hrc]
    · rw [if_neg hrc, h]

/-- Claim C7 witness: the amended statement evaluated at a concrete failing
mux environment (missing playlist) and a concrete nonzero-exit worker_service
environment. -/
theorem claim_C7_witness :
    (handle_job false muxEnvNoPlaylist false).status = "failed"
    ∧ (process_clip (pcEnvNoRecipient 1 none)).status = ClipStatus.failed :=
  ⟨claim_C7_mux_failure.2.1 false false _ "HLS playlist not found" (by decide),
   claim_C7_mux_failure.2.2.2.1 _ (by decide)⟩

/-- Claim C10: in `worker_service/main.py`, a job delivered successfully while
`AUTO_DELETE_AFTER_SEND` is on is persisted with status SENT, `result_path`
reset to `None` (the file having been unlinked), and `size_bytes` still
holding the produced file's size. -/
theorem claim_C10_sent_null_path (sz limitMB : Nat) (c : Int) (tok : String)
    (hc : c ≠ 0) (ht : tok ≠ "") (hf : size_mb_le sz limitMB) :
    (process_clip (pcEnvOf sz limitMB c tok true true)).status = ClipStatus.sent
    ∧ (process_clip (pcEnvOf sz limitMB c tok true true)).result_path = none
    ∧ (process_clip (pcEnvOf sz limitMB c tok true true)).size_bytes = some sz
    ∧ (process_clip (pcEnvOf sz limitMB c tok true true)).filePresent = false := by
  rw [process_clip_eq sz limitMB c tok true true hc ht]
  simp [hf]

/-- Claim C10 witness: a 10 MiB clip against the default 50 MB limit. -/
theorem claim_C10_witness :
    (process_clip (pcEnvOf (10 * 1024 * 1024) 50 1 "t" true true)).status = ClipStatus.sent
    ∧ (process_clip (pcEnvOf (10 * 1024 * 1024) 50 1 "t" true true)).result_path = none
    ∧ (process_clip (pcEnvOf (10 * 1024 * 1024) 50 1 "t" true true)).size_bytes = some (10 * 1024 * 1024)
    ∧ (process_clip (pcEnvOf (10 * 1024 * 1024) 50 1 "t" true true)).filePresent = false :=
  claim_C10_sent_null_path (10 * 1024 * 1024) 50 1 "t" (by decide) (by decide) (by decide)

/-- Characterization of one sweep iteration: the file survives (as itself)
exactly when it does not match the glob, or it is still present and not older
than the cutoff; and when it does not survive, nothing else is produced. -/
theorem sweepKeep_eq_some (cutoff : Int) (f g : ClipFile) :
    sweepKeep cutoff f = some g ↔
      g = f ∧ (matchesClipGlob f.name = true → f.present = true ∧ ¬ f.mtime < cutoff) := by
  unfold sweepKeep sweepFileOp
  by_cases hm : matchesClipGlob f.name <;>
    by_cases hp : f.present <;>
    by_cases ht : f.mtime < cutoff <;>
    simp [hm, hp, ht, eq_comm]

/-- Claim C9: one run of the retention sweep leaves every `ClipJob` row
untouched (`cleanup_old_clips` receives no database handle at all, so the
decision depends only on file names and mtimes, never on delivery status); a
file is deleted only when it matches `clip_*.mp4` AND is older than the
retention cutoff; and a file that has already vanished makes its `stat` raise
`FileNotFoundError` inside the per-file `try`, which the sweep absorbs — the
run still returns normally, as `cleanup_old_clips` is total. -/
theorem claim_C9_sweep (dirExists : Bool) (now retentionHours : Int) (st : SweepState) :
    (retention_sweep dirExists now retentionHours st).jobs = st.jobs
    ∧ (∀ f : ClipFile, f ∈ (retention_sweep dirExists now retentionHours st).files ↔
        (f ∈ st.files ∧ (dirExists = true → matchesClipGlob f.name = true →
          f.present = true ∧ ¬ f.mtime < now - retentionHours * 3600)))
    ∧ (∀ f : ClipFile, f.present = false →
        sweepFileOp (now - retentionHours * 3600) f = .error "FileNotFoundError") := by
  refine ⟨rfl, ?_, ?_⟩
  · intro f
    unfold retention_sweep cleanup_old_clips
    cases dirExists
    case false => simp
    case true =>
      simp only [Bool.not_true, Bool.false_eq_true, if_false, List.mem_filterMap]
      constructor
      · rintro ⟨a, ha, hg⟩
        rcases (sweepKeep_eq_some _ a f).mp hg with ⟨rfl, hcond⟩
        exact ⟨ha, fun _ => hcond⟩
      · rintro ⟨ha, hcond⟩
        exact ⟨f, ha, (sweepKeep_eq_some _ f f).mpr ⟨rfl, hcond (by trivial)⟩⟩
  · intro f hp
    unfold sweepFileOp
    simp [hp]

/-- Claim C9 witness: the sweep applied to a concrete state with an old
matching file, a fresh matching file, a non-matching file and a vanished
file, with the jobs table passing through unchanged. -/
theorem claim_C9_witness :
    (retention_sweep true 1000000 1
        { files := [{ name := "clip_a.mp4", mtime := 0, present := true }],
          jobs := [{ id := 1, session_id := 1, status := ClipStatus.sent }] }).jobs
      = [{ id := 1, session_id := 1, status := ClipStatus.sent }]
    ∧ ({ name := "clip_a.mp4", mtime := 0, present := true } : ClipFile)
        ∉ (retention_sweep true 1000000 1
            { files := [{ name := "clip_a.mp4", mtime := 0, present := true }],
              jobs := [{ id := 1, session_id := 1, status := ClipStatus.sent }] }).files := by
  have h := claim_C9_sweep true 1000000 1
    { files := [{ name := "clip_a.mp4", mtime := 0, present := true }],
      jobs := [{ id := 1, session_id := 1, status := ClipStatus.sent }] }
  refine ⟨h.1, fun hmem => ?_⟩
  have := (h.2.1 _).mp hmem
  have hc := this.2 rfl (by decide)
  exact absurd hc.2 (by decide)

/-- Claim C8 counterexample: in `src/app/routers/hooks.py`, a non-empty direct
name of 10 or fewer characters is NOT returned first — with
`name="shortname"` (9 characters) and `key="key123"` the extraction returns
the key, not the name. -/
theorem claim_C8_cex :
    extract_stream_key (some "shortname") (some "key123") none = some "key123"
    ∧ extract_stream_key (some "shortname") (some "key123") none ≠ some "shortname" := by
  constructor <;> decide

/-- Claim C8 (amended): `extract_stream_key` of `src/app/routers/hooks.py`
tries the encodings in the fixed order name, key, tcurl, with a final
fallback to the raw name — but the direct name is taken first only when it is
non-empty AND longer than 10 characters; a shorter non-empty name loses to a
non-empty key.  The `_extract_stream_key` of `src/obs/app/api_hooks.py` does
return the (stripped) direct name whenever it is non-blank. -/
theorem claim_C8_precedence :
    (∀ (key tcurl : Option String) (n : String), n ≠ "" → 10 < n.length →
       extract_stream_key (some n) key tcurl = some n)
    ∧ (∀ (name key tcurl : Option String),
        ¬ (strTruthy name ∧ 10 < (name.getD "").length) → strTruthy key →
        extract_stream_key name key tcurl = key)
    ∧ (∀ (name key : Option String), ¬ strTruthy key →
        extract_stream_key name key none = name)
    ∧ (∀ (key stream tcurl : Option String) (n : String), pyStrip n ≠ "" →
        obs_extract_stream_key (some n) key stream tcurl = some (pyStrip n)) := by
  refine ⟨?_, ?_, ?_, ?_⟩
  · intro key tcurl n h1 h2
    unfold extract_stream_key
    rw [if_pos ⟨⟨by simp, by simpa using h1⟩, by simpa using h2⟩]
  · intro name key tcurl hname hkey
    unfold extract_stream_key
    rw [if_neg hname]
    unfold extract_key_rest
    rw [if_pos hkey]
  · intro name key hkey
    have htc : extract_key_tcurl name none = name := by
      unfold extract_key_tcurl
      rw [if_neg (by unfold strTruthy; simp)]
    have hrest : extract_key_rest name key none = name := by
      unfold extract_key_rest
      rw [if_neg hkey]
      exact htc
    unfold extract_stream_key
    by_cases hc : strTruthy name ∧ 10 < (name.getD "").length
    · rw [if_pos hc]
    · rw [if_neg hc]
      exact hrest
  · intro key stream tcurl n h
    unfold obs_extract_stream_key obsNorm
    simp [h]

/-- Claim C8 witness: the amended statement evaluated at concrete inputs for
each conjunct (long name wins; short name loses to key; empty key and no
tcurl fall back to the name; the obs variant returns the stripped name). -/
theorem claim_C8_witness :
    extract_stream_key (some "averylongstreamkey") (some "key123") none = some "averylongstreamkey"
    ∧ extract_stream_key (some "ab") (some "key123") none = some "key123"
    ∧ extract_stream_key (some "ab") (some "") none = some "ab"
    ∧ obs_extract_stream_key (some " nm ") none none none = some (pyStrip " nm ") :=
  ⟨claim_C8_precedence.1 (some "key123") none "averylongstreamkey" (by decide) (by decide),
   claim_C8_precedence.2.1 (some "ab") (some "key123") none (by decide) (by decide),
   claim_C8_precedence.2.2.1 (some "ab") (some "") (by decide),
   claim_C8_precedence.2.2.2 none none none " nm " (by decide)⟩

/-- A store with one LIVE session of PC 1 and no clip job. -/
def dbOneLive : AppDb :=
  { sessions := [{ id := 1, pc_id := 1, started_at := 0, ended_at := none, status := .live, note := none }],
    jobs := [] }

/-- Claim C3 counterexample: `on_publish_done` commits the session close
(`src/app/routers/hooks.py:168`, the `db.commit()` inside `end_session`)
before `create_clip_job` commits the job insert (line 172): the state after
the first commit is visible to every other database actor, and in it the
session has status DONE while no ClipJob exists — the close and the job
creation are not atomic from the queue's perspective. -/
theorem claim_C3_cex :
    (on_publish_done_close dbOneLive 1 5).sessions
      = [{ id := 1, pc_id := 1, started_at := 0, ended_at := some 5, status := .done, note := none }]
    ∧ (on_publish_done_close dbOneLive 1 5).jobs = [] := by
  constructor <;> decide

/-- One committed stop-path step preserves distinctness of the jobs'
session ids: closing a session does not touch the jobs table, and the unique
constraint makes a duplicate insert fail without effect. -/
theorem stopStep_nodup (db : AppDb) (e : StopEv)
    (h : (db.jobs.map ClipJobRec.session_id).Nodup) :
    ((stopStep db e).jobs.map ClipJobRec.session_id).Nodup := by
  cases e with
  | closeSession sid now => exact h
  | newJob sid fresh =>
    simp only [stopStep, create_clip_job]
    by_cases hex : db.jobs.any (fun j => j.session_id == sid)
    · rw [if_pos hex]
      exact h
    · rw [if_neg hex]
      simp only [List.map_append, List.map_cons, List.map_nil]
      rw [List.nodup_append]
      refine ⟨h, List.nodup_singleton _, ?_⟩
      intro a ha hb
      simp only [List.mem_singleton] at hb
      subst hb
      rcases List.mem_map.mp ha with ⟨j, hj, hjid⟩
      have := (List.any_eq_false.mp (Bool.not_eq_true _ ▸ hex)) j hj
      simp only [beq_iff_eq] at this
      exact this hjid

/-- Claim C3 (amended): under any interleaving of committed stop-handler
steps, at most one ClipJob ever exists per session — guaranteed by the
database unique constraint on `session_id`, not by handler logic — even under
concurrent stop notifications; but the session close and the job creation are
two separate commits (see the counterexample), so the pair is not atomic. -/
theorem claim_C3_unique_job (db : AppDb) (evs : List StopEv)
    (h : (db.jobs.map ClipJobRec.session_id).Nodup) :
    ((stopExec db evs).jobs.map ClipJobRec.session_id).Nodup
    ∧ (∀ sid, jobCount (stopExec db evs) sid ≤ 1)
    ∧ (∀ sid now, (on_publish_done_close db sid now).jobs = db.jobs) := by
  have hex : ∀ (db1 : AppDb), (db1.jobs.map ClipJobRec.session_id).Nodup →
      ((stopExec db1 evs).jobs.map ClipJobRec.session_id).Nodup := by
    induction evs with
    | nil => intro db1 h1; exact h1
    | cons e rest ih =>
      intro db1 h1
      exact ih (stopStep db1 e) (stopStep_nodup db1 e h1)
  refine ⟨hex db h, ?_, fun sid now => rfl⟩
  intro sid
  have hnd := hex db h
  have hcount : jobCount (stopExec db evs) sid
      = List.count sid ((stopExec db evs).jobs.map ClipJobRec.session_id) := by
    unfold jobCount
    rw [List.count_eq_countP, List.countP_map]
    rfl
  rw [hcount]
  exact List.nodup_iff_count_le_one.mp hnd sid

/-- Claim C3 witness: two interleaved stop handlers for the same session —
close, insert, close again, insert again — yield a single job for the
session. -/
theorem claim_C3_witness :
    (dbOneLive.jobs.map ClipJobRec.session_id).Nodup
    ∧ jobCount (stopExec dbOneLive
        [.closeSession 1 5, .newJob 1 10, .closeSession 1 6, .newJob 1 11]) 1 ≤ 1 :=
  ⟨by decide,
   (claim_C3_unique_job dbOneLive
     [.closeSession 1 5, .newJob 1 10, .closeSession 1 6, .newJob 1 11]
     (by decide)).2.1 1⟩

/-- The store produced by a broadcast-start for PC 1 arriving over the LIVE
session of `dbOneLive`. -/
def dbAfterRepublish : AppDb :=
  { sessions :=
      [{ id := 1, pc_id := 1, started_at := 0, ended_at := some 5, status := .error,
         note := some "Replaced by new stream" },
       { id := 2, pc_id := 1, started_at := 5, ended_at := none, status := .live, note := none }],
    jobs := [] }

/-- Claim C2 counterexample: the note recorded on the force-closed session is
the source literal `"Replaced by new stream"` (`src/app/routers/hooks.py:116`),
not the claimed `"replaced by new stream"` — no session ever carries the
claimed lowercase note. -/
theorem claim_C2_cex :
    on_publish_sessions dbOneLive 1 2 5 = .ok dbAfterRepublish
    ∧ (∃ s ∈ dbAfterRepublish.sessions, s.note = some "Replaced by new stream")
    ∧ ¬ ∃ s ∈ dbAfterRepublish.sessions, s.note = some "replaced by new stream" := by
  refine ⟨by decide, by decide, by decide⟩

/-- Inserting the new LIVE session adds exactly one live session for its PC
and none for any other. -/
theorem liveCount_start_session (db : AppDb) (pc fresh p : Nat) (now : Int) :
    liveCount (start_session db pc fresh now) p
      = liveCount db p + (if p = pc then 1 else 0) := by
  unfold liveCount start_session
  rw [List.countP_append]
  by_cases hp : p = pc
  · subst hp
    simp [isLiveFor]
  · have hne : (pc == p) = false := beq_eq_false_iff_ne.mpr (Ne.symm hp)
    simp [isLiveFor, hne, hp]

/-- Force-closing a session never increases the number of live sessions of
any PC. -/
theorem liveCount_end_session_le (db : AppDb) (sid : Nat) (note : Option String)
    (now : Int) (p : Nat) :
    liveCount (end_session db sid SessStatus.error note now) p ≤ liveCount db p := by
  unfold liveCount end_session
  rw [List.countP_map]
  apply List.countP_mono_left
  intro s _ hpred
  by_cases hid : s.id = sid
  · simp [hid, isLiveFor] at hpred
  · simpa [hid] using hpred

/-- When the filter of live sessions of a PC is exactly one session, force-
closing that session with status ERROR leaves the PC with no live session. -/
theorem liveCount_end_unique (db : AppDb) (pc : Nat) (s0 : SessionRec)
    (note : Option String) (now : Int)
    (hl : db.sessions.filter (isLiveFor pc) = [s0]) :
    liveCount (end_session db s0.id SessStatus.error note now) pc = 0 := by
  unfold liveCount end_session
  rw [List.countP_map, List.countP_eq_zero]
  intro s hs
  by_cases hid : s.id = s0.id
  · simp [hid, isLiveFor]
  · intro hpred
    have hlive : isLiveFor pc s = true := by simpa [hid] using hpred
    have hmem : s ∈ db.sessions.filter (isLiveFor pc) :=
      List.mem_filter.mpr ⟨hs, hlive⟩
    rw [hl] at hmem
    have hss : s = s0 := by simpa using hmem
    subst hss
    simp at hid

/-- Claim C2 (amended): the `on_publish` handler, executed on a store with at
most one LIVE session per PC, preserves that invariant; whenever a LIVE
session exists for the PC it is force-closed with status ERROR and note
`"Replaced by new stream"` before the new LIVE session is created. -/
theorem claim_C2_single_live (db : AppDb) (pc fresh : Nat) (now : Int)
    (h : ∀ p, liveCount db p ≤ 1) :
    ∃ db2, on_publish_sessions db pc fresh now = .ok db2
      ∧ (∀ p, liveCount db2 p ≤ 1)
      ∧ (∀ s ∈ db.sessions, isLiveFor pc s = true →
          ∃ t ∈ db2.sessions, t.id = s.id ∧ t.status = SessStatus.error
            ∧ t.note = some "Replaced by new stream")
      ∧ (∃ t ∈ db2.sessions, t.id = fresh ∧ t.pc_id = pc ∧ t.status = SessStatus.live) := by
  have hlc : liveCount db pc = (db.sessions.filter (isLiveFor pc)).length := by
    unfold liveCount
    exact List.countP_eq_length_filter _ _
  cases hl : db.sessions.filter (isLiveFor pc) with
  | nil =>
    refine ⟨start_session db pc fresh now, ?_, ?_, ?_, ?_⟩
    · unfold on_publish_sessions get_active_session
      rw [hl]
      rfl
    · intro p
      rw [liveCount_start_session]
      by_cases hp : p = pc
      · subst hp
        rw [hlc, hl]
        simp
      · have := h p
        simp [hp]
        omega
    · intro s hs hlive
      exact absurd (List.mem_filter.mpr ⟨hs, hlive⟩) (by rw [hl]; simp)
    · simp only [start_session]
      exact ⟨_, List.mem_append_right _ (List.mem_singleton_self _), rfl, rfl, rfl⟩
  | cons s0 tl =>
    cases tl with
    | cons s1 tl2 =>
      exfalso
      have := h pc
      rw [hlc, hl] at this
      simp at this
    | nil =>
      refine ⟨start_session (end_session db s0.id SessStatus.error
          (some "Replaced by new stream") now) pc fresh now, ?_, ?_, ?_, ?_⟩
      · unfold on_publish_sessions get_active_session
        rw [hl]
        rfl
      · intro p
        rw [liveCount_start_session]
        by_cases hp : p = pc
        · subst hp
          rw [liveCount_end_unique db p s0 _ now hl]
          simp
        · have h1 := liveCount_end_session_le db s0.id
            (some "Replaced by new stream") now p
          have h2 := h p
          simp [hp]
          omega
      · intro s hs hlive
        have hmem : s ∈ db.sessions.filter (isLiveFor pc) :=
          List.mem_filter.mpr ⟨hs, hlive⟩
        rw [hl] at hmem
        have hss : s = s0 := by simpa using hmem
        subst hss
        simp only [start_session, end_session]
        refine ⟨_, List.mem_append_left _ (List.mem_map_of_mem _ hs), ?_, ?_, ?_⟩
        · simp
        · simp
        · simp
      · simp only [start_session]
        exact ⟨_, List.mem_append_right _ (List.mem_singleton_self _), rfl, rfl, rfl⟩

/-- The one-LIVE-session store satisfies the per-PC bound. -/
theorem dbOneLive_live_bound : ∀ p, liveCount dbOneLive p ≤ 1 := by
  intro p
  unfold liveCount
  calc dbOneLive.sessions.countP (isLiveFor p)
      = (dbOneLive.sessions.filter (isLiveFor p)).length :=
        List.countP_eq_length_filter _ _
    _ ≤ dbOneLive.sessions.length := List.length_filter_le _ _
    _ = 1 := rfl

/-- Claim C2 witness: a broadcast-start over a store holding one LIVE session
for the PC. -/
theorem claim_C2_witness :
    (∀ p, liveCount dbOneLive p ≤ 1)
    ∧ ∃ db2, on_publish_sessions dbOneLive 1 2 5 = .ok db2
      ∧ (∀ p, liveCount db2 p ≤ 1)
      ∧ (∀ s ∈ dbOneLive.sessions, isLiveFor 1 s = true →
          ∃ t ∈ db2.sessions, t.id = s.id ∧ t.status = SessStatus.error
            ∧ t.note = some "Replaced by new stream")
      ∧ (∃ t ∈ db2.sessions, t.id = 2 ∧ t.pc_id = 1 ∧ t.status = SessStatus.live) :=
  ⟨dbOneLive_live_bound, claim_C2_single_live dbOneLive 1 2 5 dbOneLive_live_bound⟩

/-- `find?` returns the head of the filtered list. -/
theorem find?_eq_head_filter {α : Type} (p : α → Bool) (l : List α) :
    l.find? p = (l.filter p).head? := by
  induction l with
  | nil => rfl
  | cons a t ih =>
    by_cases h : p a = true
    · rw [List.find?_cons_of_pos t h, List.filter_cons_of_pos h, List.head?_cons]
    · rw [List.find?_cons_of_neg t h, List.filter_cons_of_neg h, ih]

/-- The guarded status update leaves every job id in place. -/
theorem markRunning_map_id (jobs : List JobR) (i : Nat) :
    (markRunning jobs i).map JobR.id = jobs.map JobR.id := by
  unfold markRunning
  rw [List.map_map]
  apply List.map_congr_left
  intro j _
  by_cases hc : (j.id == i && j.status == "queued") = true
  · rw [Function.comp_apply, if_pos hc]
  · rw [Function.comp_apply, if_neg hc]

/-- The guarded status update is the identity when no job carries the id. -/
theorem markRunning_of_not_mem (jobs : List JobR) (i : Nat)
    (h : ∀ j ∈ jobs, j.id ≠ i) : markRunning jobs i = jobs := by
  unfold markRunning
  have hid : ∀ j ∈ jobs,
      (if j.id == i && j.status == "queued" then { j with status := "running" } else j) = j := by
    intro j hj
    have hne : (j.id == i) = false := beq_eq_false_iff_ne.mpr (h j hj)
    simp [hne]
  calc jobs.map _ = jobs.map id := List.map_congr_left hid
    _ = jobs := List.map_id jobs

/-- Claiming the job returned by `find?` removes exactly the head of the
queued sublist (distinct ids). -/
theorem filter_markRunning (jobs : List JobR) (j : JobR)
    (hnd : (jobs.map JobR.id).Nodup)
    (hfind : jobs.find? (fun x => x.status == "queued") = some j) :
    (markRunning jobs j.id).filter (fun x => x.status == "queued")
      = (jobs.filter (fun x => x.status == "queued")).tail := by
  induction jobs with
  | nil => simp at hfind
  | cons a t ih =>
    simp only [List.map_cons, List.nodup_cons] at hnd
    obtain ⟨hna, hnt⟩ := hnd
    by_cases ha : (a.status == "queued") = true
    · rw [List.find?_cons_of_pos t ha] at hfind
      have hja : j = a := by simpa using hfind.symm
      subst hja
      have hmark : markRunning t j.id = t := by
        apply markRunning_of_not_mem
        intro x hx he
        exact hna (he ▸ List.mem_map_of_mem JobR.id hx)
      have hmark2 : (t.map fun x =>
          if x.id == j.id && x.status == "queued" then { x with status := "running" } else x) = t := by
        have hm := hmark
        unfold markRunning at hm
        exact hm
      have hupd : (j.id == j.id && j.status == "queued") = true := by
        rw [beq_self_eq_true, Bool.true_and]
        exact ha
      have hcons : markRunning (j :: t) j.id = { j with status := "running" } :: t := by
        unfold markRunning
        rw [List.map_cons, if_pos hupd, hmark2]
      have hrun : ¬ ((({ j with status := "running" } : JobR).status == "queued") = true) := by
        intro hcontra
        exact absurd hcontra (by rw [show (({ j with status := "running" } : JobR).status == "queued") = false from rfl]; exact Bool.false_ne_true)
      rw [hcons,
        @List.filter_cons_of_neg JobR (fun x => x.status == "queued") { j with status := "running" } t hrun,
        @List.filter_cons_of_pos JobR (fun x => x.status == "queued") j t ha, List.tail_cons]
    · rw [List.find?_cons_of_neg t ha] at hfind
      have hjt : j ∈ t := List.mem_of_find?_eq_some hfind
      have hne : (a.id == j.id) = false :=
        beq_eq_false_iff_ne.mpr (fun he => hna (he ▸ List.mem_map_of_mem JobR.id hjt))
      have hcons : markRunning (a :: t) j.id = a :: markRunning t j.id := by
        unfold markRunning
        rw [List.map_cons, if_neg (by rw [hne, Bool.false_and]; exact Bool.false_ne_true)]
      rw [hcons,
        @List.filter_cons_of_neg JobR (fun x => x.status == "queued") a (markRunning t j.id) ha,
        @List.filter_cons_of_neg JobR (fun x => x.status == "queued") a t ha]
      exact ih hnt hfind

/-- FIFO characterization of a sequence of atomic claims: `k` claim steps
return exactly the first `k` queued job ids, in table (= id, = creation)
order. -/
theorem claimRun_claims (k : Nat) : ∀ (jobs : List JobR), (jobs.map JobR.id).Nodup →
    (claimRun jobs k).1 = (queuedIds jobs).take k := by
  induction k with
  | zero => intro jobs _; rfl
  | succ k ih =>
    intro jobs hnd
    cases hfind : jobs.find? (fun j => j.status == "queued") with
    | none =>
      have hcn : claimNext jobs = (none, jobs) := by
        unfold claimNext
        rw [hfind]
      have hq : queuedIds jobs = [] := by
        unfold queuedIds
        have hh := find?_eq_head_filter (fun j => j.status == "queued") jobs
        rw [hfind] at hh
        rw [List.head?_eq_none_iff.mp hh.symm]
        rfl
      simp [claimRun, hcn, hq]
    | some j =>
      have hcn : claimNext jobs = (some j.id, markRunning jobs j.id) := by
        unfold claimNext
        rw [hfind]
      have hhead : (jobs.filter (fun x => x.status == "queued")).head? = some j := by
        rw [← find?_eq_head_filter]
        exact hfind
      have hq : queuedIds jobs = j.id :: queuedIds (markRunning jobs j.id) := by
        unfold queuedIds
        rw [filter_markRunning jobs j hnd hfind]
        cases hfl : jobs.filter (fun x => x.status == "queued") with
        | nil =>
          rw [hfl] at hhead
          simp at hhead
        | cons b bt =>
          rw [hfl] at hhead
          have hbj : b = j := by simpa using hhead
          subst hbj
          rfl
      have hnd2 : ((markRunning jobs j.id).map JobR.id).Nodup := by
        rw [markRunning_map_id]
        exact hnd
      simp only [claimRun, hcn]
      rw [ih (markRunning jobs j.id) hnd2, hq, List.take_succ_cons]

/-- Claim C1 (amended): `_claim_next_job` of `src/worker/main.py` is one
atomic status-guarded read-modify step (a single conditional-update statement
over `FOR UPDATE SKIP LOCKED` on Postgres; a `BEGIN IMMEDIATE` transaction
with a status-guarded update on SQLite), so any concurrent execution by N
workers is a sequence of such steps: running at least as many steps as there
are queued jobs claims every queued job exactly once, oldest first, with no
job claimed twice and none left unclaimed.  The `worker_service` variant
polls with a plain SELECT and writes PROCESSING separately and has no such
guarantee (see the counterexample). -/
theorem claim_C1_atomic_claim (jobs : List JobR) (k : Nat)
    (hnd : (jobs.map JobR.id).Nodup) (hk : (queuedIds jobs).length ≤ k) :
    (claimRun jobs k).1 = queuedIds jobs
    ∧ (claimRun jobs k).1.Nodup
    ∧ (claimRun jobs k).1.length = (jobs.filter (fun j => j.status == "queued")).length
    ∧ (∀ i, i ∈ (claimRun jobs k).1 ↔ i ∈ queuedIds jobs) := by
  have hc := claimRun_claims k jobs hnd
  rw [List.take_of_length_le hk] at hc
  have hqnd : (queuedIds jobs).Nodup := by
    unfold queuedIds
    exact ((List.filter_sublist jobs).map JobR.id).nodup hnd
  rw [hc]
  refine ⟨rfl, hqnd, ?_, fun i => Iff.rfl⟩
  unfold queuedIds
  rw [List.length_map]

/-- The worker_service double-claim schedule: two workers poll the single
PENDING job, then each writes PROCESSING and processes it. -/
def wsRace : WSState :=
  wsExec { jobs := [{ id := 1, status := ClipStatus.pending }], snaps := [[], []], claims := [] }
    [.poll 0, .poll 1, .claimJob 0, .claimJob 1]

/-- Claim C1 counterexample: in the `worker_service` variant
(`get_pending_jobs` + `process_clip`), the claim is a plain read followed by a
separate write, and under the schedule of `wsRace` a single pending job is
claimed by both workers — 2 claims for M = 1 pending job, the job claimed
twice. -/
theorem claim_C1_cex :
    wsRace.claims = [1, 1] ∧ ¬ wsRace.claims.Nodup := by
  constructor <;> decide

/-- Claim C1 witness: three atomic claim steps over a table with two queued
jobs and one finished job claim exactly the two queued ids in order. -/
theorem claim_C1_witness :
    (([{ id := 1, status := "queued" }, { id := 2, status := "done" },
        { id := 3, status := "queued" }] : List JobR).map JobR.id).Nodup
    ∧ (claimRun [{ id := 1, status := "queued" }, { id := 2, status := "done" },
        { id := 3, status := "queued" }] 3).1
      = queuedIds [{ id := 1, status := "queued" }, { id := 2, status := "done" },
        { id := 3, status := "queued" }] :=
  ⟨by decide,
   (claim_C1_atomic_claim _ 3 (by decide) (by decide)).1⟩

end ObsFog
